import Mathlib

/-!
Verification of the Python_Based_Terminal repository.

The development shallowly embeds the two source files:
  * `src/backend/terminal_engine.py` — the `TerminalEngine` class: builtin
    command handlers (`pwd`, `cd`, `mkdir`, `rm`, ...), the dispatcher
    (`execute_command` / `execute_single_command`) and the external-command
    runner;
  * `src/backend/app.py` — the Flask session layer: `TerminalSession`,
    `get_or_create_session`, `cleanup_old_sessions`.

Modelling decisions (documented once here):
  * Paths are lists of components representing absolute paths; the model file
    system has no symlinks, so `os.path.realpath` and kernel-level path
    resolution both amount to textual normalisation of `.` and `..`.
  * The file system is a record of existing directory paths, existing file
    paths, and permission-denied paths.  OS primitives (`os.chdir`,
    `os.mkdir`, `os.makedirs`, `shutil.rmtree`, `os.rmdir`, `os.remove`)
    are modelled as `Except`-returning functions over it.
  * `print` output is accumulated as a list of printed lines.
  * External collaborators (the AI translator, `subprocess.run`, `psutil`)
    are parameters of an `Env` record, as the spec treats them as external.
  * Builtin handlers other than `pwd`, `cd`, `mkdir`, `rm` are not exercised
    by any verified claim; they are modelled as state-preserving output
    functions supplied by the environment.
  * String helpers are re-implemented by structural recursion over the
    character list of a `String`, so that closed terms evaluate inside the
    kernel; they mirror Python `str.strip`, `str.split`, `str.split(sep)`,
    `str.startswith`, `str.lower` and `str.join`.
-/

/-- Python `str.strip` (ASCII whitespace, as produced by this code base). -/
def pyStrip (s : String) : String :=
  ⟨((s.data.dropWhile Char.isWhitespace).reverse.dropWhile Char.isWhitespace).reverse⟩

/-- Auxiliary splitter: fuel-indexed structural recursion over characters. -/
def splitCharsAux (sep : List Char) : Nat → List Char → List Char → List (List Char)
  | 0, cur, rest => [cur.reverse ++ rest]
  | fuel + 1, cur, rest =>
    match rest with
    | [] => [cur.reverse]
    | c :: rs =>
      if sep.isPrefixOf rest then
        cur.reverse :: splitCharsAux sep fuel [] (rest.drop sep.length)
      else
        splitCharsAux sep fuel (c :: cur) rs

/-- Python `s.split(sep)` for a non-empty separator. -/
def pySplitOn (s sep : String) : List String :=
  (splitCharsAux sep.data s.data.length [] s.data).map (fun l => ⟨l⟩)

/-- Auxiliary for whitespace splitting. -/
def wordsAux : List Char → List Char → List (List Char)
  | cur, [] => if cur.isEmpty then [] else [cur.reverse]
  | cur, c :: rest =>
    if c.isWhitespace then
      if cur.isEmpty then wordsAux [] rest else cur.reverse :: wordsAux [] rest
    else wordsAux (c :: cur) rest

/-- Python `s.split()` with no arguments: split on whitespace, no empties. -/
def pyWords (s : String) : List String :=
  (wordsAux [] s.data).map (fun l => ⟨l⟩)

/-- Python `s.startswith(pre)`. -/
def pyStarts (s pre : String) : Bool :=
  pre.data.isPrefixOf s.data

/-- Python `s.lower()` (ASCII). -/
def pyLower (s : String) : String :=
  ⟨s.data.map Char.toLower⟩

/-- Python `sep.join(parts)`. -/
def pyJoin (sep : String) : List String → String
  | [] => ""
  | [x] => x
  | x :: y :: xs => x ++ sep ++ pyJoin sep (y :: xs)

/-- Single-quote character, used to render the quoted names in the Python
messages without writing an apostrophe literal. -/
def sqm : String := String.singleton (Char.ofNat 39)

/-- Wrap a string in single quotes, as the Python f-strings do. -/
def quoted (s : String) : String := sqm ++ s ++ sqm

/-! ## Paths and the model file system -/

/-- An absolute path, as its list of components (`[]` is the root `/`). -/
abbrev AbsPath := List String

/-- Textual resolution of `.` and `..`, which in the symlink-free model file
system coincides with `os.path.realpath` and with kernel-side resolution. -/
def normalizePath (comps : List String) : AbsPath :=
  comps.foldl
    (fun acc c => if c = "." then acc else if c = ".." then acc.dropLast else acc ++ [c]) []

/-- Resolve a Python path string against a working directory: the
`os.path.isabs` / `os.path.join` pattern used by every handler, followed by
component normalisation. -/
def parsePath (cwd : AbsPath) (s : String) : AbsPath :=
  let comps := (pySplitOn s "/").filter (fun c => c != "")
  if pyStarts s "/" then normalizePath comps else normalizePath (cwd ++ comps)

/-- Render an absolute path the way `self.current_directory` prints. -/
def showPath (p : AbsPath) : String := "/" ++ pyJoin "/" p

/-- The model file system: existing directories, existing files, and paths on
which the OS reports permission denied. -/
structure FS where
  dirs : List AbsPath
  files : List AbsPath
  denied : List AbsPath
deriving Repr, DecidableEq

/-- The OS error kinds raised by the primitives this code calls. -/
inductive OSErr where
  | notFound
  | permissionDenied
  | fileExists
  | notADirectory
  | notEmpty
deriving Repr, DecidableEq

/-- Message text used when a handler falls through to its generic
`except OSError` branch and prints the exception. -/
def osMsg : OSErr → String
  | .notFound => "No such file or directory"
  | .permissionDenied => "Permission denied"
  | .fileExists => "File exists"
  | .notADirectory => "Not a directory"
  | .notEmpty => "Directory not empty"

/-- Model of `os.path.exists`. -/
def FS.pathExists (fs : FS) (p : AbsPath) : Bool :=
  fs.dirs.contains p || fs.files.contains p

/-- Model of `os.chdir`. -/
def chdir (fs : FS) (p : AbsPath) : Except OSErr Unit :=
  if fs.dirs.contains p then
    if fs.denied.contains p then .error .permissionDenied else .ok ()
  else if fs.files.contains p then .error .notADirectory
  else .error .notFound

/-- Model of `os.mkdir` (non-recursive). -/
def os_mkdir (fs : FS) (p : AbsPath) : Except OSErr FS :=
  if fs.dirs.contains p || fs.files.contains p then .error .fileExists
  else if !(fs.dirs.contains p.dropLast) then
    (if fs.files.contains p.dropLast then .error .notADirectory else .error .notFound)
  else if fs.denied.contains p.dropLast then .error .permissionDenied
  else .ok { fs with dirs := fs.dirs ++ [p] }

/-- Nonempty prefixes of a path, shortest first. -/
def pathPrefixes (p : AbsPath) : List AbsPath :=
  (List.range p.length).map (fun i => p.take (i + 1))

/-- Work loop of `os.makedirs(..., exist_ok=True)`: create each missing
ancestor in turn. -/
def makedirsGo (leaf : AbsPath) : FS → List AbsPath → Except OSErr FS
  | fs, [] => .ok fs
  | fs, pref :: rest =>
    if fs.dirs.contains pref then makedirsGo leaf fs rest
    else if fs.files.contains pref then
      (if pref = leaf then .error .fileExists else .error .notADirectory)
    else if fs.denied.contains pref.dropLast then .error .permissionDenied
    else makedirsGo leaf { fs with dirs := fs.dirs ++ [pref] } rest

/-- Model of `os.makedirs(p, exist_ok=True)`. -/
def makedirs (fs : FS) (p : AbsPath) : Except OSErr FS :=
  makedirsGo p fs (pathPrefixes p)

/-- Model of `shutil.rmtree`: removes the directory and everything below it. -/
def shutil_rmtree (fs : FS) (p : AbsPath) : Except OSErr FS :=
  if fs.denied.contains p then .error .permissionDenied
  else
    .ok { fs with
      dirs := fs.dirs.filter (fun d => !(p.isPrefixOf d)),
      files := fs.files.filter (fun f => !(p.isPrefixOf f)) }

/-- Model of `os.rmdir`: only removes an empty directory. -/
def os_rmdir (fs : FS) (p : AbsPath) : Except OSErr FS :=
  if fs.dirs.any (fun d => p.isPrefixOf d && d != p) || fs.files.any (fun f => p.isPrefixOf f) then
    .error .notEmpty
  else if fs.denied.contains p then .error .permissionDenied
  else .ok { fs with dirs := fs.dirs.filter (fun d => d != p) }

/-- Model of `os.remove`. -/
def os_remove (fs : FS) (p : AbsPath) : Except OSErr FS :=
  if fs.denied.contains p then .error .permissionDenied
  else .ok { fs with files := fs.files.filter (fun f => f != p) }

/-! ## Engine, world and environment -/

/-- State of one `TerminalEngine` object: its `command_history` list and its
`current_directory`. -/
structure Engine where
  command_history : List String
  current_directory : AbsPath
deriving Repr, DecidableEq

/-- Process-wide OS state shared by all sessions: the file system and the
process working directory (`os.getcwd()` / `os.chdir`). -/
structure World where
  fs : FS
  process_cwd : AbsPath
deriving Repr, DecidableEq

/-- A configuration: the shared world plus one engine. -/
structure Cfg where
  world : World
  engine : Engine
deriving Repr, DecidableEq

/-- `TerminalEngine.__init__`: empty history, working directory taken from
`os.getcwd()`. -/
def Engine.init (w : World) : Engine :=
  { command_history := [], current_directory := w.process_cwd }

/-- Outcome of `subprocess.run` as observed by `execute_external_command`. -/
inductive ExtOutcome where
  | notFound
  | permissionDenied
  | ran (stdout stderr : String) (returncode : Int)

/-- External collaborators and ambient configuration: the user home
directory, AI availability and translation, the external-process runner, and
the output of the builtin handlers not exercised by the verified claims
(modelled as state-preserving prints). -/
structure Env where
  home : AbsPath
  ai_available : Bool
  translate : String → Option String
  runExternal : AbsPath → List String → ExtOutcome
  otherBuiltin : String → List String → List String

/-! ## Builtin command handlers (`terminal_engine.py`) -/

/-- `cmd_pwd`: print the current directory. -/
def cmd_pwd (cfg : Cfg) (_args : List String) : Cfg × List String :=
  (cfg, [showPath cfg.engine.current_directory])

/-- Error line printed by the `except` clauses of `cmd_cd`
(`FileNotFoundError`, `PermissionError`, generic `OSError`). -/
def cd_error_line : OSErr → String
  | .notFound => "Error: No such file or directory"
  | .permissionDenied => "Error: Permission denied"
  | e => "Error: " ++ osMsg e

/-- `cmd_cd`: change directory.  With no argument it targets the home
directory; a relative argument is joined to the working directory; the
resolved path is passed to `os.chdir` and, on success, recorded both in the
process working directory and in `self.current_directory`.  Failures leave
the state unchanged and print one error line. -/
def cmd_cd (env : Env) (cfg : Cfg) (args : List String) : Cfg × List String :=
  let target : AbsPath :=
    if args.isEmpty then env.home
    else parsePath cfg.engine.current_directory (pyJoin " " args)
  match chdir cfg.world.fs target with
  | .ok _ =>
      ({ world := { fs := cfg.world.fs, process_cwd := target },
         engine := { command_history := cfg.engine.command_history,
                     current_directory := target } }, [])
  | .error e => (cfg, [cd_error_line e])

/-- Usage line of `cmd_mkdir`. -/
def mkdirUsage : String := "Usage: mkdir [-p] <directory_name>"

/-- Error line printed by the `except` clauses of `cmd_mkdir`
(`FileExistsError`, `PermissionError`, generic `OSError`). -/
def mkdir_error_line (name : String) : OSErr → String
  | .fileExists => "Error: Directory " ++ quoted name ++ " already exists"
  | .permissionDenied => "Error: Permission denied"
  | e => "Error: " ++ osMsg e

/-- Success line printed by `cmd_mkdir`. -/
def msgCreated (name : String) : String :=
  "Directory " ++ quoted name ++ " created successfully"

/-- Per-name body of the `cmd_mkdir` loop. -/
def mkdirStep (cwd : AbsPath) (recursive : Bool) (acc : FS × List String)
    (name : String) : FS × List String :=
  let p := parsePath cwd name
  match (if recursive then makedirs acc.1 p else os_mkdir acc.1 p) with
  | .ok fs2 => (fs2, acc.2 ++ [msgCreated name])
  | .error e => (acc.1, acc.2 ++ [mkdir_error_line name e])

/-- `cmd_mkdir`: create directories, `-p` selecting
`os.makedirs(..., exist_ok=True)` over `os.mkdir`. -/
def cmd_mkdir (cfg : Cfg) (args : List String) : Cfg × List String :=
  if args.isEmpty then (cfg, [mkdirUsage])
  else
    let recursive := args.contains "-p"
    let rest := if recursive then args.erase "-p" else args
    if rest.isEmpty then (cfg, [mkdirUsage])
    else
      let r := rest.foldl (mkdirStep cfg.engine.current_directory recursive) (cfg.world.fs, [])
      ({ cfg with world := { cfg.world with fs := r.1 } }, r.2)

/-- Usage line of `cmd_rm`. -/
def rmUsage : String := "Usage: rm [-rf] <file_or_directory>"

/-- Per-item body of the `cmd_rm` loop: missing items and the missing-force
refusal `continue` without touching the file system; deletions catch
`OSError` and print a per-item error. -/
def rmStep (cwd : AbsPath) (recursive force : Bool) (acc : FS × List String)
    (item : String) : FS × List String :=
  let p := parsePath cwd item
  if !(acc.1.pathExists p) then
    (acc.1, acc.2 ++ ["Error: " ++ quoted item ++ " not found"])
  else if !force then
    (acc.1, acc.2 ++ ["Error: Use -f flag to delete " ++ quoted item ++ " in web mode for safety"])
  else if acc.1.dirs.contains p then
    if recursive then
      match shutil_rmtree acc.1 p with
      | .ok fs2 => (fs2, acc.2 ++ ["Directory " ++ quoted item ++ " deleted successfully"])
      | .error e => (acc.1, acc.2 ++ ["Error deleting " ++ quoted item ++ ": " ++ osMsg e])
    else
      match os_rmdir acc.1 p with
      | .ok fs2 => (fs2, acc.2 ++ ["Directory " ++ quoted item ++ " deleted successfully"])
      | .error e => (acc.1, acc.2 ++ ["Error deleting " ++ quoted item ++ ": " ++ osMsg e])
  else
    match os_remove acc.1 p with
    | .ok fs2 => (fs2, acc.2 ++ ["File " ++ quoted item ++ " deleted successfully"])
    | .error e => (acc.1, acc.2 ++ ["Error deleting " ++ quoted item ++ ": " ++ osMsg e])

/-- `cmd_rm`: flags are `-r`, `-f`, `-rf`; every argument starting with `-`
is then filtered out; each remaining item is processed by `rmStep`. -/
def cmd_rm (cfg : Cfg) (args : List String) : Cfg × List String :=
  if args.isEmpty then (cfg, [rmUsage])
  else
    let recursive := args.contains "-r" || args.contains "-rf"
    let force := args.contains "-f" || args.contains "-rf"
    let items := args.filter (fun a => !(pyStarts a "-"))
    if items.isEmpty then (cfg, [rmUsage])
    else
      let r := items.foldl (rmStep cfg.engine.current_directory recursive force) (cfg.world.fs, [])
      ({ cfg with world := { cfg.world with fs := r.1 } }, r.2)

/-! ## Dispatcher (`terminal_engine.py`) -/

/-- The keys of `self.builtin_commands`. -/
def builtin_verbs : List String :=
  ["pwd", "ls", "cd", "mkdir", "rm", "cp", "mv", "cpu", "mem", "ps",
   "history", "clear", "help", "whoami", "date", "cat", "touch", "find"]

/-- Dispatch one builtin verb to its handler.  Handlers other than the four
exercised by the claims are environment-supplied prints (see the header). -/
def run_builtin (env : Env) (verb : String) (cfg : Cfg) (args : List String) :
    Cfg × List String :=
  if verb = "pwd" then cmd_pwd cfg args
  else if verb = "cd" then cmd_cd env cfg args
  else if verb = "mkdir" then cmd_mkdir cfg args
  else if verb = "rm" then cmd_rm cfg args
  else (cfg, env.otherBuiltin verb args)

/-- The fixed indicator word list of `is_likely_natural_language`. -/
def nl_indicators : List String :=
  ["show", "list", "find", "create", "delete", "copy", "move", "what",
   "how", "where", "all", "me", "the"]

/-- `is_likely_natural_language`: at least three tokens and an indicator word
among the first three. -/
def is_likely_natural_language (input : String) : Bool :=
  let parts := pyWords input
  if parts.length < 3 then false
  else ((parts.take 3).any (fun w => nl_indicators.contains (pyLower w)))

/-- `execute_external_command`: run the external process, print captured
stdout/stderr, report a bare non-zero exit code, and map spawn failures to
one-line errors.  The child process cannot change the session state. -/
def execute_external_command (env : Env) (cfg : Cfg) (parts : List String) :
    Cfg × List String × Bool :=
  match env.runExternal cfg.engine.current_directory parts with
  | .notFound => (cfg, ["Error: Command not found"], false)
  | .permissionDenied => (cfg, ["Error: Permission denied"], false)
  | .ran out err rc =>
    let o1 := if out = "" then [] else [pyStrip out]
    let o2 := if err = "" then [] else [pyStrip err]
    let o3 :=
      if out = "" && err = "" && rc != 0 then
        ["Command exited with return code: " ++ toString rc]
      else []
    (cfg, o1 ++ o2 ++ o3, rc == 0)

/-- Result of `execute_single_command`: final state, printed lines, the
boolean it returns, and whether a Python exception escaped (the
`command_parts[0]` IndexError on an empty command). -/
structure SingleRes where
  cfg : Cfg
  output : List String
  success : Bool
  exc : Bool
deriving Repr, DecidableEq

/-- The two lines printed before executing a translated command. -/
def aiBanner (input cmd : String) : List String :=
  ["AI translated: " ++ quoted input ++ " -> " ++ quoted cmd,
   "Executing translated command..."]

/-- `execute_single_command`: whitespace-split, dispatch builtins (any
handler exception would be caught, and the modelled handlers never raise, so
builtins always return `True`), otherwise try AI translation for likely
natural language, otherwise run an external command. -/
def execute_single_command (env : Env) (cfg : Cfg) (input : String) : SingleRes :=
  match pyWords input with
  | [] => { cfg := cfg, output := [], success := false, exc := true }
  | command :: args =>
    if builtin_verbs.contains command then
      let r := run_builtin env command cfg args
      { cfg := r.1, output := r.2, success := true, exc := false }
    else if env.ai_available && is_likely_natural_language input then
      match env.translate input with
      | some ai_cmd =>
        let r := execute_external_command env cfg (pyWords ai_cmd)
        { cfg := r.1, output := aiBanner input ai_cmd ++ r.2.1, success := r.2.2, exc := false }
      | none =>
        { cfg := cfg, output := ["Could not translate natural language to command"],
          success := false, exc := false }
    else
      let r := execute_external_command env cfg (command :: args)
      { cfg := r.1, output := r.2.1, success := r.2.2, exc := false }

/-- Result of `execute_command`. -/
structure ExecRes where
  cfg : Cfg
  output : List String
  exc : Bool
deriving Repr, DecidableEq

/-- The `for cmd in commands: if not execute_single_command(cmd): break`
loop of `execute_command`; an escaping exception aborts the loop. -/
def runChain (env : Env) : Cfg → List String → ExecRes
  | cfg, [] => { cfg := cfg, output := [], exc := false }
  | cfg, c :: rest =>
    let r := execute_single_command env cfg c
    if r.exc then { cfg := r.cfg, output := r.output, exc := true }
    else if !r.success then { cfg := r.cfg, output := r.output, exc := false }
    else
      let t := runChain env r.cfg rest
      { cfg := t.cfg, output := r.output ++ t.output, exc := t.exc }

/-- `execute_command`: ignore blank input, append the raw input to
`command_history`, then either run the `&&` chain or the single command. -/
def execute_command (env : Env) (cfg : Cfg) (input : String) : ExecRes :=
  if pyStrip input = "" then { cfg := cfg, output := [], exc := false }
  else
    let cfg1 : Cfg :=
      { cfg with engine :=
        { cfg.engine with command_history := cfg.engine.command_history ++ [input] } }
    let pieces := pySplitOn input "&&"
    if pieces.length > 1 then runChain env cfg1 (pieces.map pyStrip)
    else
      let r := execute_single_command env cfg1 input
      { cfg := r.cfg, output := r.output, exc := r.exc }

/-! ## Session layer (`app.py`) -/

/-- One entry of the session store: wraps a `TerminalEngine` plus the
creation and last-activity timestamps (modelled as whole seconds). -/
structure TerminalSession where
  session_id : String
  terminal : Engine
  created_at : Nat
  last_activity : Nat
deriving Repr, DecidableEq

/-- `TerminalSession.__init__`. -/
def TerminalSession.init (sid : String) (now : Nat) (w : World) : TerminalSession :=
  { session_id := sid, terminal := Engine.init w, created_at := now, last_activity := now }

/-- The JSON-shaped result of `TerminalSession.execute_command`. -/
structure CommandResult where
  success : Bool
  output : String
  current_directory : AbsPath
deriving Repr, DecidableEq

/-- `TerminalSession.execute_command`: stamp the activity time, run
`execute_single_command` (not `execute_command`) with output captured, and
package the result; an escaping exception is caught and reported as a
failure.  A `print(line)` writes `line ++ "\n"`, so the captured text is
empty exactly when no line was printed, in which case the fixed success
message is substituted; otherwise the joined text is stripped. -/
def TerminalSession.execute_command (env : Env) (now : Nat) (w : World)
    (s : TerminalSession) (command : String) : World × TerminalSession × CommandResult :=
  let s1 := { s with last_activity := now }
  let r := execute_single_command env { world := w, engine := s1.terminal } command
  let s2 := { s1 with terminal := r.cfg.engine }
  if r.exc then
    (r.cfg.world, s2,
      { success := false,
        output := "Error executing command: list index out of range",
        current_directory := r.cfg.engine.current_directory })
  else
    let text :=
      if r.output.isEmpty then "Command executed successfully"
      else pyStrip (pyJoin "\n" r.output)
    (r.cfg.world, s2,
      { success := r.success, output := text,
        current_directory := r.cfg.engine.current_directory })

/-- The process-wide session store, in insertion order. -/
abbrev SessionStore := List (String × TerminalSession)

/-- `get_or_create_session`: a falsy (absent or empty) identifier is replaced
by a freshly generated uuid (passed in as `fresh`); the chosen identifier is
then looked up and, when unknown, a new session is created under it. -/
def get_or_create_session (w : World) (now : Nat) (store : SessionStore)
    (sid? : Option String) (fresh : String) : String × SessionStore :=
  let sid := match sid? with
    | none => fresh
    | some s => if s = "" then fresh else s
  if (store.lookup sid).isSome then (sid, store)
  else (sid, store ++ [(sid, TerminalSession.init sid now w)])

/-- Python `timedelta.seconds` for a non-negative whole-second difference:
the seconds component of the difference, i.e. the value modulo one day. -/
def timedelta_seconds (diff : Nat) : Nat := diff % 86400

/-- `cleanup_old_sessions`: delete every session whose
`(now - last_activity).seconds` exceeds 3600. -/
def cleanup_old_sessions (now : Nat) (store : SessionStore) : SessionStore :=
  store.filter (fun e => !(timedelta_seconds (now - e.2.last_activity) > 3600))

/-! ## Concrete fixtures used by witnesses and counterexamples -/

/-- Environment with no AI key configured and no external binaries on the
path; the unmodelled builtin handlers print nothing. -/
def env0 : Env :=
  { home := ["root"], ai_available := false,
    translate := fun _ => none,
    runExternal := fun _ _ => ExtOutcome.notFound,
    otherBuiltin := fun _ _ => [] }

/-- A file system with `/`, `/a` and a file `/a/t.txt`. -/
def fs0 : FS :=
  { dirs := [[], ["a"]], files := [["a", "t.txt"]], denied := [] }

/-- A configuration sitting at `/` over `fs0` with empty history. -/
def cfg0 : Cfg :=
  { world := { fs := fs0, process_cwd := [] },
    engine := { command_history := [], current_directory := [] } }

/-- A session whose working directory exists, sitting at `/a`. -/
def cfgA : Cfg :=
  { world := { fs := { dirs := [[], ["a"]], files := [], denied := [] },
               process_cwd := ["a"] },
    engine := { command_history := [], current_directory := ["a"] } }

/-- A session over a file system containing a file named `-x` in the working
directory. -/
def cfgD : Cfg :=
  { world := { fs := { dirs := [[]], files := [["-x"]], denied := [] },
               process_cwd := [] },
    engine := { command_history := [], current_directory := [] } }

/-- A fresh-root configuration for the C8 witness. -/
def cfgE : Cfg :=
  { world := { fs := { dirs := [[]], files := [], denied := [] }, process_cwd := [] },
    engine := { command_history := [], current_directory := [] } }

/-- The C4 chain input. -/
def chainC4 : String := "mkdir -p x && cd x && pwd"

/-- The configuration after `execute_command` has recorded the chain in the
history, before any sub-command runs. -/
def c4Start (cfg : Cfg) : Cfg :=
  { cfg with engine :=
    { cfg.engine with command_history := cfg.engine.command_history ++ [chainC4] } }

/-- A state in which `mkdir -p x` must fail: the working directory `/w`
exists but directory creation inside it is permission-denied. -/
def cfgW : Cfg :=
  { world := { fs := { dirs := [[], ["w"]], files := [], denied := [["w"]] },
               process_cwd := ["w"] },
    engine := { command_history := [], current_directory := ["w"] } }

/-! ## Helper lemmas: no handler or dispatch path touches `command_history` -/

theorem cmd_cd_history (env : Env) (cfg : Cfg) (args : List String) :
    (cmd_cd env cfg args).1.engine.command_history = cfg.engine.command_history := by
  simp only [cmd_cd]
  split <;> rfl

theorem cmd_mkdir_history (cfg : Cfg) (args : List String) :
    (cmd_mkdir cfg args).1.engine.command_history = cfg.engine.command_history := by
  simp only [cmd_mkdir]
  repeat' first | rfl | split

theorem cmd_rm_history (cfg : Cfg) (args : List String) :
    (cmd_rm cfg args).1.engine.command_history = cfg.engine.command_history := by
  simp only [cmd_rm]
  repeat' first | rfl | split

theorem run_builtin_history (env : Env) (v : String) (cfg : Cfg) (args : List String) :
    (run_builtin env v cfg args).1.engine.command_history = cfg.engine.command_history := by
  unfold run_builtin
  split
  · rfl
  · split
    · exact cmd_cd_history env cfg args
    · split
      · exact cmd_mkdir_history cfg args
      · split
        · exact cmd_rm_history cfg args
        · rfl

theorem execute_external_cfg (env : Env) (cfg : Cfg) (parts : List String) :
    (execute_external_command env cfg parts).1 = cfg := by
  unfold execute_external_command
  split <;> rfl

theorem execute_single_history (env : Env) (cfg : Cfg) (input : String) :
    (execute_single_command env cfg input).cfg.engine.command_history
      = cfg.engine.command_history := by
  simp only [execute_single_command]
  split
  · rfl
  · split
    · exact run_builtin_history ..
    · split
      · split
        · simp only [execute_external_cfg]
        · rfl
      · simp only [execute_external_cfg]

theorem runChain_history (env : Env) :
    ∀ (cmds : List String) (cfg : Cfg),
      (runChain env cfg cmds).cfg.engine.command_history = cfg.engine.command_history := by
  intro cmds
  induction cmds with
  | nil => intro cfg; rfl
  | cons c rest ih =>
    intro cfg
    simp only [runChain]
    split
    · exact execute_single_history ..
    · split
      · exact execute_single_history ..
      · rw [ih, execute_single_history]

theorem execute_command_history (env : Env) (cfg : Cfg) (input : String) :
    (execute_command env cfg input).cfg.engine.command_history
      = cfg.engine.command_history ++ (if pyStrip input = "" then [] else [input]) := by
  simp only [execute_command]
  split
  · simp [*]
  · split
    · simp [runChain_history, *]
    · simp [execute_single_history, *]

/-! ## C1 -/

/-- C1 counterexample: the claim says the session history after N atomic
commands has exactly N entries.  (1) One atomic command executed through the
web wrapper `TerminalSession.execute_command` leaves the history empty,
because that wrapper calls `execute_single_command`, which never records.
(2) Through `TerminalEngine.execute_command`, the two-atomic-command chain
`pwd && pwd` yields exactly one history entry, the whole chain text. -/
theorem C1_counterexample :
    ((TerminalSession.execute_command env0 5 cfg0.world
        (TerminalSession.init "s" 0 cfg0.world) "pwd").2.1).terminal.command_history = [] ∧
    (execute_command env0 cfg0 "pwd && pwd").cfg.engine.command_history
      = ["pwd && pwd"] := by
  exact ⟨by decide, by decide⟩

/-- C1 (amended): `TerminalSession.execute_command` appends nothing to the
history (it dispatches via `execute_single_command`); only
`TerminalEngine.execute_command` records, and it appends exactly one entry
per non-blank input — the entire pre-translation submitted text, a `&&`
chain counting as a single entry — regardless of the command outcome. -/
theorem C1_amended :
    (∀ (env : Env) (now : Nat) (w : World) (s : TerminalSession) (cmd : String),
      ((TerminalSession.execute_command env now w s cmd).2.1).terminal.command_history
        = s.terminal.command_history) ∧
    (∀ (env : Env) (cfg : Cfg) (inputs : List String),
      (inputs.foldl (fun c i => (execute_command env c i).cfg) cfg).engine.command_history
        = cfg.engine.command_history ++ inputs.filter (fun i => pyStrip i != "")) := by
  constructor
  · intro env now w s cmd
    simp only [TerminalSession.execute_command]
    split
    · exact execute_single_history ..
    · exact execute_single_history ..
  · intro env cfg inputs
    induction inputs generalizing cfg with
    | nil => simp
    | cons i rest ih =>
      simp only [List.foldl_cons, List.filter_cons]
      rw [ih, execute_command_history]
      by_cases h : pyStrip i = "" <;> simp [h]

/-! ## C3 -/

/-- C3: the sweep must remove any session whose inactivity exceeds one hour.
The code compares `timedelta.seconds` — the sub-day seconds component — so a
session inactive for 86401 seconds (one day and one second) is retained,
while one inactive for 7200 seconds (two hours) is removed. -/
theorem C3_code_bug_eval :
    cleanup_old_sessions 7200 [("s", TerminalSession.init "s" 0 cfg0.world)] = [] ∧
    cleanup_old_sessions 86401 [("s", TerminalSession.init "s" 0 cfg0.world)]
      = [("s", TerminalSession.init "s" 0 cfg0.world)] := by
  exact ⟨by decide, by decide⟩

/-! ## C7 -/

/-- C7 counterexample: called with the unknown identifier `"client-chosen"`,
`get_or_create_session` creates the session under that client-supplied
identifier, not under a newly generated one (`"fresh-uuid-1234"` here). -/
theorem C7_counterexample :
    (get_or_create_session cfg0.world 0 [] (some "client-chosen") "fresh-uuid-1234").1
      = "client-chosen" ∧
    ((get_or_create_session cfg0.world 0 [] (some "client-chosen") "fresh-uuid-1234").2.map
        Prod.fst) = ["client-chosen"] ∧
    "client-chosen" ≠ "fresh-uuid-1234" := by
  exact ⟨by decide, by decide, by decide⟩

/-- C7 (amended): when the identifier is absent (or falsy), the session is
created under the newly generated identifier; when a non-empty identifier is
supplied but unknown, the session is created under that supplied identifier;
a known identifier returns the store unchanged. -/
theorem C7_amended (w : World) (now : Nat) (store : SessionStore) (sid fresh : String)
    (hsid : sid ≠ "") :
    (store.lookup sid = none →
      get_or_create_session w now store (some sid) fresh
        = (sid, store ++ [(sid, TerminalSession.init sid now w)])) ∧
    (store.lookup fresh = none →
      get_or_create_session w now store none fresh
        = (fresh, store ++ [(fresh, TerminalSession.init fresh now w)])) ∧
    (∀ s, store.lookup sid = some s →
      get_or_create_session w now store (some sid) fresh = (sid, store)) := by
  refine ⟨fun h => ?_, fun h => ?_, fun s h => ?_⟩ <;>
    simp [get_or_create_session, hsid, h]

/-- C7 witness: the amended theorem applied at concrete inputs. -/
theorem C7_witness :
    get_or_create_session cfg0.world 3 [] (some "abc") "xyz"
      = ("abc", [("abc", TerminalSession.init "abc" 3 cfg0.world)]) :=
  (C7_amended cfg0.world 3 [] "abc" "xyz" (by decide)).1 (by decide)

/-! ## C2 -/

/-- A successful `os.chdir` implies the target is an existing directory. -/
theorem chdir_ok_mem {fs : FS} {p : AbsPath} {u : Unit} (h : chdir fs p = .ok u) :
    fs.dirs.contains p = true := by
  unfold chdir at h
  split at h
  · next hc => exact hc
  · next hc => split at h <;> exact Except.noConfusion h

/-- C2 counterexample: from a state whose working directory `/a` exists,
executing `rm -rf /a` succeeds and removes the directory while leaving the
session working directory pointing at it, so the working directory is no
longer an existing path — refuting the invariant as stated. -/
theorem C2_counterexample :
    (execute_command env0 cfgA "rm -rf /a").cfg.engine.current_directory = ["a"] ∧
    ((execute_command env0 cfgA "rm -rf /a").cfg.world.fs.dirs.contains ["a"]) = false ∧
    (execute_command env0 cfgA "rm -rf /a").output
      = ["Directory " ++ quoted "/a" ++ " deleted successfully"] := by
  exact ⟨by decide, by decide, by decide⟩

/-- C2 (amended): `cd` itself preserves the invariant — it either succeeds,
leaving the working directory an (absolute, by construction) existing
directory and the file system untouched, or fails with a single not-found /
permission-denied / OS-error line and changes nothing; but `rm -rf` can
delete the directory the working directory denotes (see the
counterexample), after which the stored path no longer exists. -/
theorem C2_amended (env : Env) (cfg : Cfg) (args : List String) :
    ((cmd_cd env cfg args).2 = [] ∧
      (cmd_cd env cfg args).1.world.fs.dirs.contains
        (cmd_cd env cfg args).1.engine.current_directory = true ∧
      (cmd_cd env cfg args).1.world.fs = cfg.world.fs)
    ∨ (∃ e, (cmd_cd env cfg args).1 = cfg ∧ (cmd_cd env cfg args).2 = [cd_error_line e]) := by
  simp only [cmd_cd]
  split
  · next u heq =>
      left
      exact ⟨rfl, chdir_ok_mem heq, rfl⟩
  · next e heq =>
      right
      exact ⟨e, rfl, rfl⟩

/-! ## C5 -/

/-- C5 counterexample: the OS failure inside `cd nope` is rendered as a
one-line error string, but the command is reported as successful — the
dispatcher returns `True` for every builtin that does not raise, and the
handlers catch their own errors — contradicting the claim that the command
is reported as failed. -/
theorem C5_counterexample :
    (execute_single_command env0 cfg0 "cd nope").success = true ∧
    (execute_single_command env0 cfg0 "cd nope").output
      = ["Error: No such file or directory"] := by
  exact ⟨by decide, by decide⟩

/-- C5 (amended): for invocations of the modelled builtins (`pwd`, `cd`,
`mkdir`, `rm`) no exception escapes the dispatcher boundary and OS failures
inside `cd` are rendered as a single error line, but the invocation is
reported as successful, not failed. -/
theorem C5_amended :
    (∀ (env : Env) (cfg : Cfg) (input v : String) (args : List String),
      pyWords input = v :: args → (v = "pwd" ∨ v = "cd" ∨ v = "mkdir" ∨ v = "rm") →
      (execute_single_command env cfg input).exc = false ∧
      (execute_single_command env cfg input).success = true) ∧
    (∀ (env : Env) (cfg : Cfg) (args : List String),
      (cmd_cd env cfg args).2 = [] ∨ ∃ m, (cmd_cd env cfg args).2 = [m]) := by
  constructor
  · intro env cfg input v args hw hv
    have hm : v ∈ builtin_verbs := by
      rcases hv with h | h | h | h <;> subst h <;> decide
    refine ⟨?_, ?_⟩ <;> simp [execute_single_command, hw, hm]
  · intro env cfg args
    simp only [cmd_cd]
    split
    · exact Or.inl rfl
    · exact Or.inr ⟨_, rfl⟩

/-- C5 witness: the amended theorem applied to the concrete invocation
`mkdir zzz`. -/
theorem C5_witness :
    (execute_single_command env0 cfg0 "mkdir zzz").exc = false ∧
    (execute_single_command env0 cfg0 "mkdir zzz").success = true :=
  C5_amended.1 env0 cfg0 "mkdir zzz" "mkdir" ["zzz"] (by decide)
    (Or.inr (Or.inr (Or.inl rfl)))

/-! ## C9 -/

/-- C9: a successful `cd` stores the resolved target both in the session and
— via `os.chdir` — in the process-wide working directory, and every engine
or session initialised afterwards reads `os.getcwd()`, so it starts in the
directory last changed to, not in a fixed initial directory. -/
theorem C9_theorem (env : Env) (cfg : Cfg) (args : List String)
    (h : (cmd_cd env cfg args).2 = []) :
    (cmd_cd env cfg args).1.world.process_cwd
        = (cmd_cd env cfg args).1.engine.current_directory ∧
    (Engine.init (cmd_cd env cfg args).1.world).current_directory
        = (cmd_cd env cfg args).1.engine.current_directory ∧
    ∀ (sid : String) (now : Nat),
      (TerminalSession.init sid now (cmd_cd env cfg args).1.world).terminal.current_directory
        = (cmd_cd env cfg args).1.engine.current_directory := by
  simp only [cmd_cd] at h ⊢
  split at h
  · next u heq =>
      simp [heq, TerminalSession.init, Engine.init]
  · next e heq =>
      simp at h

/-- C9 witness: after this session does `cd a`, the process working
directory equals the new session directory and a session created afterwards
starts there. -/
theorem C9_witness :
    (cmd_cd env0 cfg0 ["a"]).1.world.process_cwd
        = (cmd_cd env0 cfg0 ["a"]).1.engine.current_directory ∧
    (TerminalSession.init "n" 9 (cmd_cd env0 cfg0 ["a"]).1.world).terminal.current_directory
        = (cmd_cd env0 cfg0 ["a"]).1.engine.current_directory := by
  have h := C9_theorem env0 cfg0 ["a"] (by decide)
  exact ⟨h.1, h.2.2 "n" 9⟩

/-! ## C6 -/

/-- Without the force flag, one `rm` loop iteration never touches the file
system. -/
theorem rmStep_no_force (cwd : AbsPath) (rec : Bool) (acc : FS × List String)
    (item : String) : (rmStep cwd rec false acc item).1 = acc.1 := by
  simp only [rmStep]
  split <;> rfl

/-- Without the force flag, the whole `rm` loop never touches the file
system. -/
theorem rm_fold_no_force (cwd : AbsPath) (rec : Bool) :
    ∀ (items : List String) (acc : FS × List String),
      (items.foldl (rmStep cwd rec false) acc).1 = acc.1 := by
  intro items
  induction items with
  | nil => intro acc; rfl
  | cons i rest ih =>
    intro acc
    rw [List.foldl_cons, ih, rmStep_no_force]

/-- C6: `rm` without the force flag never deletes anything — the whole
configuration is unchanged regardless of the arguments — and `rm -rf` on an
existing, non-denied directory removes it together with every path below
it. -/
theorem C6_theorem (cfg : Cfg) :
    (∀ args : List String, args.contains "-f" = false → args.contains "-rf" = false →
      (cmd_rm cfg args).1 = cfg) ∧
    (∀ (t : String) (p : AbsPath), pyStarts t "-" = false →
      parsePath cfg.engine.current_directory t = p →
      p ∈ cfg.world.fs.dirs → p ∉ cfg.world.fs.denied →
      ∀ q : AbsPath, p.isPrefixOf q = true →
        q ∉ (cmd_rm cfg ["-rf", t]).1.world.fs.dirs ∧
        q ∉ (cmd_rm cfg ["-rf", t]).1.world.fs.files) := by
  constructor
  · intro args hf hrf
    simp only [cmd_rm, hf, hrf, Bool.or_false]
    split
    · rfl
    · split
      · rfl
      · rw [rm_fold_no_force]
  · intro t p ht hpp hdir hden q hq
    have e1 : pyStarts "-rf" "-" = true := by decide
    have hitems : (["-rf", t].filter (fun a => !(pyStarts a "-"))) = [t] := by
      simp [List.filter_cons, e1, ht]
    have hc1 : cfg.world.fs.dirs.contains p = true := List.elem_iff.mpr hdir
    have hc2 : cfg.world.fs.denied.contains p = false := by
      simp [List.elem_iff, hden]
    have hrec : (["-rf", t].contains "-r" || ["-rf", t].contains "-rf") = true := by
      simp
    have hforce : (["-rf", t].contains "-f" || ["-rf", t].contains "-rf") = true := by
      simp
    simp only [cmd_rm, hitems, hrec, hforce, List.isEmpty_cons, List.foldl_cons,
      List.foldl_nil, rmStep, hpp, FS.pathExists, hc1, Bool.true_or, Bool.not_true,
      shutil_rmtree, hc2]
    simp [List.mem_filter, hq]

/-- C6 witness: in `cfg0`, `rm a/t.txt` (no force) changes nothing, and
`rm -rf a` removes the file `/a/t.txt` below the deleted directory. -/
theorem C6_witness :
    (cmd_rm cfg0 ["a/t.txt"]).1 = cfg0 ∧
    ["a", "t.txt"] ∉ (cmd_rm cfg0 ["-rf", "a"]).1.world.fs.dirs ∧
    ["a", "t.txt"] ∉ (cmd_rm cfg0 ["-rf", "a"]).1.world.fs.files := by
  refine ⟨(C6_theorem cfg0).1 ["a/t.txt"] (by decide) (by decide), ?_, ?_⟩
  · exact ((C6_theorem cfg0).2 "a" ["a"] (by decide) (by decide) (by decide) (by decide)
      ["a", "t.txt"] (by decide)).1
  · exact ((C6_theorem cfg0).2 "a" ["a"] (by decide) (by decide) (by decide) (by decide)
      ["a", "t.txt"] (by decide)).2

/-! ## C10 -/

/-- C10 counterexample: the claim says a file whose name begins with a dash
can never be targeted for deletion; but `rm -f` applied to the path
"dot slash dash x" deletes the file named `-x` (that path does not begin
with a dash and resolves to the file), while the bare name `rm -f -x` is
indeed discarded as a flag and deletes nothing. -/
theorem C10_counterexample :
    (cmd_rm cfgD ["-f", "./-x"]).1.world.fs.files = [] ∧
    (cmd_rm cfgD ["-f", "./-x"]).2
      = ["File " ++ quoted "./-x" ++ " deleted successfully"] ∧
    (cmd_rm cfgD ["-f", "-x"]).1.world.fs.files = [["-x"]] ∧
    (cmd_rm cfgD ["-f", "-x"]).2 = [rmUsage] := by
  exact ⟨by decide, by decide, by decide, by decide⟩

/-- C10 (amended): any `rm` argument beginning with a dash other than `-r`,
`-f`, `-rf` is meaningless and silently discarded — inserting one anywhere
changes neither the state nor the output — so a dash-named file cannot be
targeted by its bare name; it can, however, still be deleted through an
equivalent path that does not begin with a dash, such as the
"dot slash dash x" path of the counterexample. -/
theorem C10_amended (cfg : Cfg) (l1 l2 : List String) (x : String)
    (hx : pyStarts x "-" = true) (h1 : x ≠ "-r") (h2 : x ≠ "-f") (h3 : x ≠ "-rf") :
    cmd_rm cfg (l1 ++ x :: l2) = cmd_rm cfg (l1 ++ l2) := by
  have hcr : (l1 ++ x :: l2).contains "-r" = (l1 ++ l2).contains "-r" := by
    simp [List.mem_append, Ne.symm h1]
  have hcf : (l1 ++ x :: l2).contains "-f" = (l1 ++ l2).contains "-f" := by
    simp [List.mem_append, Ne.symm h2]
  have hcrf : (l1 ++ x :: l2).contains "-rf" = (l1 ++ l2).contains "-rf" := by
    simp [List.mem_append, Ne.symm h3]
  have hfil : (l1 ++ x :: l2).filter (fun a => !(pyStarts a "-"))
      = (l1 ++ l2).filter (fun a => !(pyStarts a "-")) := by
    simp [List.filter_append, List.filter_cons, hx]
  have he1 : (l1 ++ x :: l2).isEmpty = false := by
    cases l1 <;> simp
  rcases hll : l1 ++ l2 with _ | ⟨a, as⟩
  · have hl1 : l1 = [] := List.append_eq_nil.mp hll |>.1
    have hl2 : l2 = [] := List.append_eq_nil.mp hll |>.2
    subst hl1; subst hl2
    simp [cmd_rm, List.filter_cons, hx]
  · rw [hll] at hcr hcf hcrf hfil
    simp only [cmd_rm, hcr, hcf, hcrf, hfil, he1, List.isEmpty_cons]

/-- C10 witness: inserting the unrecognized dash argument `-z` into an `rm`
invocation changes nothing. -/
theorem C10_witness :
    cmd_rm cfg0 ["-f", "-z", "a/t.txt"] = cmd_rm cfg0 ["-f", "a/t.txt"] :=
  C10_amended cfg0 ["-f"] ["a/t.txt"] "-z" (by decide) (by decide) (by decide) (by decide)

/-! ## C8 -/

/-- Boolean membership from propositional membership. -/
theorem contains_true_of_mem {α : Type} [BEq α] [LawfulBEq α] {l : List α} {a : α}
    (h : a ∈ l) : l.contains a = true :=
  List.elem_iff.mpr h

/-- Boolean non-membership from propositional non-membership. -/
theorem contains_false_of_not_mem {α : Type} [BEq α] [LawfulBEq α] {l : List α} {a : α}
    (h : a ∉ l) : l.contains a = false := by
  simp [List.elem_iff, h]

/-- `os.makedirs(..., exist_ok=True)` succeeds whenever no needed prefix is
an existing file or under a denied parent; it only ever adds directories. -/
theorem makedirsGo_ok (leaf : AbsPath) :
    ∀ (prefs : List AbsPath) (fs : FS),
      (∀ pf ∈ prefs, pf ∉ fs.files ∧ pf.dropLast ∉ fs.denied) →
      ∃ fs', makedirsGo leaf fs prefs = Except.ok fs' ∧
        fs'.files = fs.files ∧ fs'.denied = fs.denied ∧
        (∀ pf ∈ prefs, pf ∈ fs'.dirs) ∧
        (∀ d ∈ fs.dirs, d ∈ fs'.dirs) := by
  intro prefs
  induction prefs with
  | nil =>
    intro fs _
    exact ⟨fs, rfl, rfl, rfl, by simp, fun d hd => hd⟩
  | cons pref rest ih =>
    intro fs h
    have hpf := h pref (List.mem_cons_self ..)
    have hrest : ∀ pf ∈ rest, pf ∉ fs.files ∧ pf.dropLast ∉ fs.denied :=
      fun pf hpf2 => h pf (List.mem_cons_of_mem _ hpf2)
    cases hcond : fs.dirs.contains pref with
    | true =>
      obtain ⟨fs', he, hf, hden, hall, hmono⟩ := ih fs hrest
      refine ⟨fs', ?_, hf, hden, ?_, hmono⟩
      · simp only [makedirsGo, hcond, if_true]
        exact he
      · intro pf hpf2
        rcases List.mem_cons.mp hpf2 with h1 | h1
        · subst h1
          exact hmono _ (List.elem_iff.mp hcond)
        · exact hall _ h1
    | false =>
      have hfile : fs.files.contains pref = false := contains_false_of_not_mem hpf.1
      have hden2 : fs.denied.contains pref.dropLast = false := contains_false_of_not_mem hpf.2
      have hrest2 : ∀ pf ∈ rest,
          pf ∉ (FS.mk (fs.dirs ++ [pref]) fs.files fs.denied).files ∧
          pf.dropLast ∉ (FS.mk (fs.dirs ++ [pref]) fs.files fs.denied).denied := hrest
      obtain ⟨fs', he, hf, hden, hall, hmono⟩ :=
        ih (FS.mk (fs.dirs ++ [pref]) fs.files fs.denied) hrest2
      refine ⟨fs', ?_, hf, hden, ?_, ?_⟩
      · simp only [makedirsGo, hcond, hfile, hden2]
        simpa using he
      · intro pf hpf2
        rcases List.mem_cons.mp hpf2 with h1 | h1
        · subst h1
          exact hmono _ (by simp)
        · exact hall _ h1
      · intro d hd
        exact hmono _ (by simp [hd])

/-- A second `os.makedirs(..., exist_ok=True)` run over prefixes that all
exist is a no-op success. -/
theorem makedirsGo_all_present (leaf : AbsPath) :
    ∀ (prefs : List AbsPath) (fs : FS),
      (∀ pf ∈ prefs, pf ∈ fs.dirs) → makedirsGo leaf fs prefs = Except.ok fs := by
  intro prefs
  induction prefs with
  | nil => intro fs _; rfl
  | cons pref rest ih =>
    intro fs h
    have hc : fs.dirs.contains pref = true :=
      contains_true_of_mem (h pref (List.mem_cons_self ..))
    simp only [makedirsGo, hc, if_true]
    exact ih fs (fun pf hpf => h pf (List.mem_cons_of_mem _ hpf))

/-- C8: `mkdir -p a/b/c` twice succeeds both times (the second run is a
no-op over the directories created by the first), while `mkdir a` twice
fails the second time with the dedicated already-exists message, distinct
from the permission-denied and generic OS-error branches. -/
theorem C8_theorem (cfg : Cfg) (p pa : AbsPath)
    (hp : parsePath cfg.engine.current_directory "a/b/c" = p)
    (hpre : ∀ pf ∈ pathPrefixes p, pf ∉ cfg.world.fs.files ∧ pf.dropLast ∉ cfg.world.fs.denied)
    (hpa : parsePath cfg.engine.current_directory "a" = pa)
    (ha1 : pa ∉ cfg.world.fs.dirs) (ha2 : pa ∉ cfg.world.fs.files)
    (ha3 : pa.dropLast ∈ cfg.world.fs.dirs) (ha4 : pa.dropLast ∉ cfg.world.fs.denied) :
    ((cmd_mkdir cfg ["-p", "a/b/c"]).2 = [msgCreated "a/b/c"] ∧
     (cmd_mkdir (cmd_mkdir cfg ["-p", "a/b/c"]).1 ["-p", "a/b/c"]).2
        = [msgCreated "a/b/c"]) ∧
    ((cmd_mkdir cfg ["a"]).2 = [msgCreated "a"] ∧
     (cmd_mkdir (cmd_mkdir cfg ["a"]).1 ["a"]).2
        = ["Error: Directory " ++ quoted "a" ++ " already exists"]) := by
  obtain ⟨fs', hok, hfiles, hdenied, hall, hmono⟩ :=
    makedirsGo_ok p (pathPrefixes p) cfg.world.fs hpre
  have hcp : (["-p", "a/b/c"] : List String).contains "-p" = true := by decide
  have herase : (["-p", "a/b/c"] : List String).erase "-p" = ["a/b/c"] := by decide
  have hrun1 : cmd_mkdir cfg ["-p", "a/b/c"]
      = ({ cfg with world := { cfg.world with fs := fs' } }, [msgCreated "a/b/c"]) := by
    simp [cmd_mkdir, hcp, herase, mkdirStep, hp, makedirs, hok]
  have hok2 : makedirsGo p fs' (pathPrefixes p) = Except.ok fs' :=
    makedirsGo_all_present p (pathPrefixes p) fs' hall
  have hb1 : cfg.world.fs.dirs.contains pa = false := contains_false_of_not_mem ha1
  have hb2 : cfg.world.fs.files.contains pa = false := contains_false_of_not_mem ha2
  have hb3 : cfg.world.fs.dirs.contains pa.dropLast = true := contains_true_of_mem ha3
  have hb4 : cfg.world.fs.denied.contains pa.dropLast = false := contains_false_of_not_mem ha4
  have hcpa : (["a"] : List String).contains "-p" = false := by decide
  have hrun3 : cmd_mkdir cfg ["a"]
      = (Cfg.mk
          (World.mk
            (FS.mk (cfg.world.fs.dirs ++ [pa]) cfg.world.fs.files cfg.world.fs.denied)
            cfg.world.process_cwd)
          cfg.engine,
         [msgCreated "a"]) := by
    simp [cmd_mkdir, hcpa, mkdirStep, hpa, os_mkdir, ha1, ha2, ha3, ha4]
  refine ⟨⟨?_, ?_⟩, ?_, ?_⟩
  · rw [hrun1]
  · rw [hrun1]
    simp [cmd_mkdir, hcp, herase, mkdirStep, hp, makedirs, hok2]
  · rw [hrun3]
  · rw [hrun3]
    have hb1b : (cfg.world.fs.dirs ++ [pa]).contains pa = true :=
      contains_true_of_mem (by simp)
    simp [cmd_mkdir, hcpa, mkdirStep, hpa, os_mkdir, hb1b, mkdir_error_line]

/-- C8 witness: the theorem applied at a fresh root file system. -/
theorem C8_witness :
    (cmd_mkdir cfgE ["-p", "a/b/c"]).2 = [msgCreated "a/b/c"] ∧
    (cmd_mkdir (cmd_mkdir cfgE ["-p", "a/b/c"]).1 ["-p", "a/b/c"]).2
        = [msgCreated "a/b/c"] ∧
    (cmd_mkdir cfgE ["a"]).2 = [msgCreated "a"] ∧
    (cmd_mkdir (cmd_mkdir cfgE ["a"]).1 ["a"]).2
        = ["Error: Directory " ++ quoted "a" ++ " already exists"] := by
  have h := C8_theorem cfgE ["a", "b", "c"] ["a"] (by decide) (by decide) (by decide)
    (by decide) (by decide) (by decide) (by decide)
  exact ⟨h.1.1, h.1.2, h.2.1, h.2.2⟩

/-! ## C4 -/

/-- C4 counterexample: in `cfgW` the `mkdir` step of
`mkdir -p x && cd x && pwd` fails with permission denied, yet both `cd` and
`pwd` still execute — the output contains their lines — contradicting the
claim that neither executes after a failing `mkdir`. -/
theorem C4_counterexample :
    (execute_command env0 cfgW chainC4).output
      = ["Error: Permission denied", "Error: No such file or directory", "/w"] := by
  decide

/-- C4 (amended): sub-commands of a `&&` chain run in order and a
sub-command that returns failure aborts the rest; but builtin sub-commands
always return success, even when they print an error (handlers swallow their
exceptions), so in `mkdir -p x && cd x && pwd` all three sub-commands
execute whether or not `mkdir` fails — the chain output is exactly the mkdir
output, then the cd output, then the `pwd` line; only failures of
external/translated commands short-circuit, as in the second conjunct. -/
theorem C4_amended :
    (∀ (env : Env) (cfg : Cfg),
      (execute_command env cfg chainC4).output
        = (cmd_mkdir (c4Start cfg) ["-p", "x"]).2
          ++ ((cmd_cd env (cmd_mkdir (c4Start cfg) ["-p", "x"]).1 ["x"]).2
            ++ [showPath
                ((cmd_cd env (cmd_mkdir (c4Start cfg) ["-p", "x"]).1
                  ["x"]).1.engine.current_directory)])) ∧
    (execute_command env0 cfg0 "definitelynotacommand && pwd").output
      = ["Error: Command not found"] := by
  exact ⟨fun env cfg => rfl, by decide⟩
